import Mathlib

/-!
Shallow embedding of `src/webflow.py` (class `WebflowApi`), a thin client for
the Webflow CMS HTTP API, together with proofs of its observable contract.

Modelling choices, each justified by the source:
* JSON values are an inductive `Json`; JSON numbers are modelled as integers
  (every value appearing in the traffic built by the client is an integer).
* The HTTP layer (`requests.request`) is an explicit parameter
  `server : Request → HttpResponse`: the client is a pure function of the
  behaviour of the server.  An `HttpResponse` carries the status code and the
  result of parsing its body as JSON (`none` when the body is not valid
  JSON), which is all the client ever observes of a response
  (`res.json()`, `res.raise_for_status()`).
* Python exceptions become the `PyError` sum propagated through `Except`.
* The `while` loop of `list_items(all=True)` is modelled with explicit fuel;
  exhausting every fuel bound models non-termination of the loop.
* Every operation returns the list of HTTP requests it issued (its trace)
  next to its result, so that claims about headers, query strings, bodies
  and request counts can be stated.
-/

/-- JSON values, as produced by the Python `json` module on the bodies this
client exchanges.  Numbers are integers (see the module comment). -/
inductive Json where
  | null : Json
  | bool : Bool → Json
  | num : Int → Json
  | str : String → Json
  | arr : List Json → Json
  | obj : List (String × Json) → Json

/-- Python exceptions the client can raise:
`decodeError` is `json.JSONDecodeError` from `res.json()`;
`httpError` is `requests.HTTPError` from `res.raise_for_status()`, carrying
the status code and the (already parsed) body;
`attributeError` is the error Django raises when `settings.WEBFLOW_API_KEY`
is not set; `keyError` and `typeError` are dict/operand errors. -/
inductive PyError where
  | decodeError : PyError
  | httpError : Nat → Json → PyError
  | attributeError : PyError
  | keyError : PyError
  | typeError : PyError

/-- One HTTP request as the client hands it to `requests.request`: method,
full URL (the code appends query strings directly to the path), headers,
and the optional `json=` body. -/
structure Request where
  method : String
  url : String
  headers : List (String × String)
  jsonArg : Option Json

/-- What the client observes of an HTTP response: the status code and the
result of parsing the body as JSON (`none` when the body is not valid JSON). -/
structure HttpResponse where
  status : Nat
  jsonBody : Option Json

/-- The upstream HTTP service, as seen through `requests.request`. -/
def Server : Type := Request → HttpResponse

namespace Json

/-- Python dict read `d[k]` on a parsed JSON value: `none` when the value is
not an object or lacks the key (a `KeyError`/`TypeError` at the call site). -/
def getKey : Json → String → Option Json
  | .obj kvs, k => kvs.lookup k
  | _, _ => none

/-- Python dict write `d[k] = v` on a parsed JSON object: replaces the value
in place when the key is present (dict insertion order is preserved),
appends otherwise; a `TypeError` on a non-object. -/
def setKey : Json → String → Json → Except PyError Json
  | .obj kvs, k, v =>
      .ok (.obj (if kvs.any (fun p => p.1 = k)
        then kvs.map (fun p => if p.1 = k then (k, v) else p)
        else kvs ++ [(k, v)]))
  | _, _, _ => .error .typeError

end Json

/-- Python `list.extend(x)` where `x` is a parsed JSON value: a JSON array
contributes its elements, a string iterates its characters, an object
iterates its keys, and the remaining values are not iterable (`TypeError`). -/
def extendItems : Json → Except PyError (List Json)
  | .arr xs => .ok xs
  | .str s => .ok (s.toList.map (fun c => Json.str (String.singleton c)))
  | .obj kvs => .ok (kvs.map (fun p => Json.str p.1))
  | _ => .error .typeError

/-- Python `len(all_items) < resp[ \x27total\x27 ]`: the right operand must be an
`int` (Python `bool` counts as an int); comparing with any other parsed JSON
value raises a `TypeError`. -/
def asTotal : Json → Except PyError Int
  | .num n => .ok n
  | .bool b => .ok (if b then 1 else 0)
  | _ => .error .typeError

namespace WebflowApi

/-- `WEBFLOW_URL = "https://api.webflow.com"`. -/
def WEBFLOW_URL : String := "https://api.webflow.com"

/-- The `HEADERS` dict of the class, for a given token value. -/
def mkHeaders (token : String) : List (String × String) :=
  [("Accept-Version", "1.0.0"),
   ("Authorization", "Bearer " ++ token),
   ("content-type", "application/json")]

/-- Evaluation of the class attribute `HEADERS`, which reads
`settings.WEBFLOW_API_KEY` when the class body is executed: Django raises an
`AttributeError` for a missing setting; any present string (including the
empty string) is interpolated into the `Authorization` header unchecked. -/
def classHeaders : Option String → Except PyError (List (String × String))
  | none => .error .attributeError
  | some token => .ok (mkHeaders token)

/-- `_webflow_request`: issue one request, parse the body as JSON (the
unconditional `print(res.json())` runs before any status check, so an
unparseable body raises first), then `raise_for_status()` (which raises
exactly for status codes in [400, 600)), then return the parsed body.
Returns the request trace next to the outcome. -/
def webflow_request (server : Server) (hdrs : List (String × String))
    (method path : String) (jsonArg : Option Json := none) :
    List Request × Except PyError Json :=
  let req : Request := ⟨method, WEBFLOW_URL ++ "/" ++ path, hdrs, jsonArg⟩
  let res := server req
  ([req],
    match res.jsonBody with
    | none => .error .decodeError
    | some j =>
        if 400 ≤ res.status ∧ res.status < 600 then
          .error (.httpError res.status j)
        else
          .ok j)

/-- `info`. -/
def info (server : Server) (hdrs : List (String × String)) :
    List Request × Except PyError Json :=
  webflow_request server hdrs "GET" "info"

/-- `list_sites`. -/
def list_sites (server : Server) (hdrs : List (String × String)) :
    List Request × Except PyError Json :=
  webflow_request server hdrs "GET" "sites"

/-- `get_site`. -/
def get_site (server : Server) (hdrs : List (String × String))
    (site_id : String) : List Request × Except PyError Json :=
  webflow_request server hdrs "GET" ("sites/" ++ site_id)

/-- `publish_site`: POST to `sites/<site_id>/publish` with the JSON body
built as `domains = (dict with key "domains" mapped to domain_names)`. -/
def publish_site (server : Server) (hdrs : List (String × String))
    (site_id : String) (domain_names : List Json) :
    List Request × Except PyError Json :=
  webflow_request server hdrs "POST" ("sites/" ++ site_id ++ "/publish")
    (some (Json.obj [("domains", Json.arr domain_names)]))

/-- `list_domains`. -/
def list_domains (server : Server) (hdrs : List (String × String))
    (site_id : String) : List Request × Except PyError Json :=
  webflow_request server hdrs "GET" ("sites/" ++ site_id ++ "/domains")

/-- `list_collections`. -/
def list_collections (server : Server) (hdrs : List (String × String))
    (site_id : String) : List Request × Except PyError Json :=
  webflow_request server hdrs "GET" ("sites/" ++ site_id ++ "/collections")

/-- `get_collection`. -/
def get_collection (server : Server) (hdrs : List (String × String))
    (collection_id : String) : List Request × Except PyError Json :=
  webflow_request server hdrs "GET" ("collections/" ++ collection_id)

/-- The single-page branch of `list_items` (`all=False`): one GET to
`collections/<id>/items?limit=<limit>&offset=<offset>`. -/
def list_items_page (server : Server) (hdrs : List (String × String))
    (collection_id : String) (limit offset : Int) :
    List Request × Except PyError Json :=
  webflow_request server hdrs "GET"
    ("collections/" ++ collection_id ++ "/items?limit=" ++ toString limit
      ++ "&offset=" ++ toString offset)

/-- The `while len(all_items) < resp[ \x27total\x27 ]` loop of
`list_items(all=True)`.  State: current `offset`, accumulated `all_items`,
last response `resp`.  Each iteration advances the offset by 100 and fetches
a page via the recursive `self.list_items(collection_id, offset=offset,
all=False)` call, which leaves `limit` at its default of 100.  `fuel` bounds
the number of loop iterations; a result of `none` means the bound was hit
(the loop has not terminated within `fuel` iterations). -/
def list_items_loop (server : Server) (hdrs : List (String × String))
    (collection_id : String) :
    Nat → Int → List Json → Json →
      List Request × Option (Except PyError (List Json × Json))
  | 0, _, _, _ => ([], none)
  | fuel + 1, offset, all_items, resp =>
      match resp.getKey "total" with
      | none => ([], some (.error .keyError))
      | some t =>
          match asTotal t with
          | .error e => ([], some (.error e))
          | .ok total =>
              if (all_items.length : Int) < total then
                let offset2 := offset + 100
                match list_items_page server hdrs collection_id 100 offset2 with
                | (reqs, .error e) => (reqs, some (.error e))
                | (reqs, .ok resp2) =>
                    match resp2.getKey "items" with
                    | none => (reqs, some (.error .keyError))
                    | some itemsJ =>
                        match extendItems itemsJ with
                        | .error e => (reqs, some (.error e))
                        | .ok newItems =>
                            match list_items_loop server hdrs collection_id
                                fuel offset2 (all_items ++ newItems) resp2 with
                            | (reqs2, out) => (reqs ++ reqs2, out)
              else ([], some (.ok (all_items, resp)))

/-- `list_items`.  With `all=False`: a single page request, the response
returned as is.  With `all=True`: fetch the page at the given offset (the
recursive call passes only `offset`, so `limit` is its default 100), extend
`all_items` with its items, run the accumulation loop, then return the last
response with its `items` entry replaced by the accumulated list and its
`count` entry replaced by the accumulated length.  `fuel` bounds the loop;
`none` models the loop not having terminated. -/
def list_items (server : Server) (hdrs : List (String × String))
    (collection_id : String) (limit : Int := 100) (offset : Int := 0)
    (all : Bool := false) (fuel : Nat := 0) :
    List Request × Option (Except PyError Json) :=
  if all then
    match list_items_page server hdrs collection_id 100 offset with
    | (reqs0, .error e) => (reqs0, some (.error e))
    | (reqs0, .ok resp) =>
        match resp.getKey "items" with
        | none => (reqs0, some (.error .keyError))
        | some itemsJ =>
            match extendItems itemsJ with
            | .error e => (reqs0, some (.error e))
            | .ok items0 =>
                match list_items_loop server hdrs collection_id
                    fuel offset items0 resp with
                | (reqs1, none) => (reqs0 ++ reqs1, none)
                | (reqs1, some (.error e)) => (reqs0 ++ reqs1, some (.error e))
                | (reqs1, some (.ok (all_items, lastResp))) =>
                    (reqs0 ++ reqs1,
                      some (
                        match lastResp.setKey "items" (Json.arr all_items) with
                        | .error e => .error e
                        | .ok r1 =>
                            match r1.setKey "count" (Json.num all_items.length) with
                            | .error e => .error e
                            | .ok r2 => .ok r2))
  else
    match list_items_page server hdrs collection_id limit offset with
    | (reqs, r) => (reqs, some r)

/-- `get_item`. -/
def get_item (server : Server) (hdrs : List (String × String))
    (collection_id item_id : String) : List Request × Except PyError Json :=
  webflow_request server hdrs "GET"
    ("collections/" ++ collection_id ++ "/items/" ++ item_id)

/-- `create_item`: body `data` with single key "fields" mapped to the
payload; `?live=true` appended to the path exactly when `live`. -/
def create_item (server : Server) (hdrs : List (String × String))
    (collection_id : String) (item_data : Json) (live : Bool := false) :
    List Request × Except PyError Json :=
  let data := Json.obj [("fields", item_data)]
  let l := if live then "?live=true" else ""
  webflow_request server hdrs "POST"
    ("collections/" ++ collection_id ++ "/items" ++ l) (some data)

/-- `update_item`: PUT variant of `create_item` addressing one item. -/
def update_item (server : Server) (hdrs : List (String × String))
    (collection_id item_id : String) (item_data : Json) (live : Bool := false) :
    List Request × Except PyError Json :=
  let data := Json.obj [("fields", item_data)]
  let l := if live then "?live=true" else ""
  webflow_request server hdrs "PUT"
    ("collections/" ++ collection_id ++ "/items/" ++ item_id ++ l) (some data)

/-- `patch_item`: PATCH variant of `update_item`. -/
def patch_item (server : Server) (hdrs : List (String × String))
    (collection_id item_id : String) (item_data : Json) (live : Bool := false) :
    List Request × Except PyError Json :=
  let data := Json.obj [("fields", item_data)]
  let l := if live then "?live=true" else ""
  webflow_request server hdrs "PATCH"
    ("collections/" ++ collection_id ++ "/items/" ++ item_id ++ l) (some data)

/-- `remove_item`. -/
def remove_item (server : Server) (hdrs : List (String × String))
    (collection_id item_id : String) : List Request × Except PyError Json :=
  webflow_request server hdrs "DELETE"
    ("collections/" ++ collection_id ++ "/items/" ++ item_id)

/-- `list_webhooks`. -/
def list_webhooks (server : Server) (hdrs : List (String × String))
    (site_id : String) : List Request × Except PyError Json :=
  webflow_request server hdrs "GET" ("sites/" ++ site_id ++ "/webhooks")

/-- `get_webhook`. -/
def get_webhook (server : Server) (hdrs : List (String × String))
    (site_id webhook_id : String) : List Request × Except PyError Json :=
  webflow_request server hdrs "GET"
    ("sites/" ++ site_id ++ "/webhooks/" ++ webhook_id)

/-- `create_webhook`: POST body with keys "triggerType", "url", "filter". -/
def create_webhook (server : Server) (hdrs : List (String × String))
    (site_id triggerType url : String) (filter : Json) :
    List Request × Except PyError Json :=
  webflow_request server hdrs "POST" ("sites/" ++ site_id ++ "/webhooks")
    (some (Json.obj
      [("triggerType", Json.str triggerType),
       ("url", Json.str url),
       ("filter", filter)]))

/-- `remove_webhook`. -/
def remove_webhook (server : Server) (hdrs : List (String × String))
    (site_id webhook_id : String) : List Request × Except PyError Json :=
  webflow_request server hdrs "DELETE"
    ("sites/" ++ site_id ++ "/webhooks/" ++ webhook_id)

end WebflowApi

/-- One call to any public method of `WebflowApi`, with its arguments.
`list_items` additionally carries the loop fuel of the model. -/
inductive Op where
  | info : Op
  | list_sites : Op
  | get_site : String → Op
  | publish_site : String → List Json → Op
  | list_domains : String → Op
  | list_collections : String → Op
  | get_collection : String → Op
  | list_items : String → Int → Int → Bool → Nat → Op
  | get_item : String → String → Op
  | create_item : String → Json → Bool → Op
  | update_item : String → String → Json → Bool → Op
  | patch_item : String → String → Json → Bool → Op
  | remove_item : String → String → Op
  | list_webhooks : String → Op
  | get_webhook : String → String → Op
  | create_webhook : String → String → String → Json → Op
  | remove_webhook : String → String → Op

/-- Dispatch an `Op` to the corresponding `WebflowApi` method.  Results are
uniformly wrapped in `Option`; only `list_items(all=True)` can produce
`none` (loop fuel exhausted). -/
def runOp (server : Server) (hdrs : List (String × String)) :
    Op → List Request × Option (Except PyError Json)
  | .info => (fun p => (p.1, some p.2)) (WebflowApi.info server hdrs)
  | .list_sites => (fun p => (p.1, some p.2)) (WebflowApi.list_sites server hdrs)
  | .get_site s => (fun p => (p.1, some p.2)) (WebflowApi.get_site server hdrs s)
  | .publish_site s d =>
      (fun p => (p.1, some p.2)) (WebflowApi.publish_site server hdrs s d)
  | .list_domains s =>
      (fun p => (p.1, some p.2)) (WebflowApi.list_domains server hdrs s)
  | .list_collections s =>
      (fun p => (p.1, some p.2)) (WebflowApi.list_collections server hdrs s)
  | .get_collection c =>
      (fun p => (p.1, some p.2)) (WebflowApi.get_collection server hdrs c)
  | .list_items c limit offset all fuel =>
      WebflowApi.list_items server hdrs c limit offset all fuel
  | .get_item c i => (fun p => (p.1, some p.2)) (WebflowApi.get_item server hdrs c i)
  | .create_item c d live =>
      (fun p => (p.1, some p.2)) (WebflowApi.create_item server hdrs c d live)
  | .update_item c i d live =>
      (fun p => (p.1, some p.2)) (WebflowApi.update_item server hdrs c i d live)
  | .patch_item c i d live =>
      (fun p => (p.1, some p.2)) (WebflowApi.patch_item server hdrs c i d live)
  | .remove_item c i =>
      (fun p => (p.1, some p.2)) (WebflowApi.remove_item server hdrs c i)
  | .list_webhooks s =>
      (fun p => (p.1, some p.2)) (WebflowApi.list_webhooks server hdrs s)
  | .get_webhook s w =>
      (fun p => (p.1, some p.2)) (WebflowApi.get_webhook server hdrs s w)
  | .create_webhook s t u f =>
      (fun p => (p.1, some p.2)) (WebflowApi.create_webhook server hdrs s t u f)
  | .remove_webhook s w =>
      (fun p => (p.1, some p.2)) (WebflowApi.remove_webhook server hdrs s w)

/-! ## Fixtures and helper lemmas -/

/-- The URL of a `list_items` page request, exactly as `webflow_request`
builds it from the path `list_items_page` passes. -/
def itemsPageUrl (cid : String) (limit offset : Int) : String :=
  WebflowApi.WEBFLOW_URL ++ "/" ++
    ("collections/" ++ cid ++ "/items?limit=" ++ toString limit
      ++ "&offset=" ++ toString offset)

/-- The items numbered `a, a+1, ..., a+n-1`, a simulated slice of a
collection, numbered so that server order is observable. -/
def seg (a n : Nat) : List Json :=
  (List.range n).map (fun i => Json.num (a + i))

/-- A page envelope of the shape the Webflow items endpoint returns, for a
collection of 250 items. -/
def envelope250 (xs : List Json) (offset : Int) : Json :=
  Json.obj [("items", Json.arr xs), ("count", Json.num xs.length),
            ("limit", Json.num 100), ("offset", Json.num offset),
            ("total", Json.num 250)]

/-- Simulated upstream holding 250 items in collection "coll1", served in
pages of at most 100 from offsets 0, 100 and 200. -/
def server250 : Server := fun req =>
  if req.url = itemsPageUrl "coll1" 100 0 then
    ⟨200, some (envelope250 (seg 0 100) 0)⟩
  else if req.url = itemsPageUrl "coll1" 100 100 then
    ⟨200, some (envelope250 (seg 100 100) 100)⟩
  else if req.url = itemsPageUrl "coll1" 100 200 then
    ⟨200, some (envelope250 (seg 200 50) 200)⟩
  else ⟨404, some (Json.obj [("msg", Json.str "not found")])⟩

/-- A page envelope with zero items that still reports a total of 250. -/
def emptyResp : Json :=
  Json.obj [("items", Json.arr []), ("count", Json.num 0),
            ("total", Json.num 250)]

/-- Simulated upstream every one of whose page responses carries zero items
while reporting a total of 250. -/
def serverEmptyPages : Server := fun _ => ⟨200, some emptyResp⟩

/-- Against `serverEmptyPages` the accumulation loop never stops on its own:
for every iteration bound it runs out of fuel, having issued one page
request per iteration. -/
theorem loop_empty_none (hdrs : List (String × String)) (cid : String) :
    ∀ fuel offset,
      (WebflowApi.list_items_loop serverEmptyPages hdrs cid
        fuel offset [] emptyResp).2 = none ∧
      (WebflowApi.list_items_loop serverEmptyPages hdrs cid
        fuel offset [] emptyResp).1.length = fuel := by
  intro fuel
  induction fuel with
  | zero => intro offset; exact ⟨rfl, rfl⟩
  | succ n ih =>
      intro offset
      refine ⟨(ih (offset + 100)).1, ?_⟩
      show (⟨"GET", _, hdrs, none⟩ :: (WebflowApi.list_items_loop serverEmptyPages
        hdrs cid n (offset + 100) [] emptyResp).1).length = n + 1
      rw [List.length_cons, (ih (offset + 100)).2]


/-- Every request the accumulation loop of `list_items(all=True)` issues is
a GET with the configured headers, no body, and a page URL whose `limit` is
the hard-coded 100. -/
theorem list_items_loop_requests (server : Server)
    (hdrs : List (String × String)) (cid : String) (fuel : Nat)
    (offset : Int) (all_items : List Json) (resp : Json) :
    ∀ r ∈ (WebflowApi.list_items_loop server hdrs cid
        fuel offset all_items resp).1,
      r.method = "GET" ∧ r.headers = hdrs ∧ r.jsonArg = none ∧
      ∃ off : Int, r.url = itemsPageUrl cid 100 off := by
  induction fuel, offset, all_items, resp
    using WebflowApi.list_items_loop.induct server hdrs cid with
  | case1 offset all_items resp =>
      intro r hr
      simp [WebflowApi.list_items_loop] at hr
  | case2 fuel offset all_items resp h1 =>
      intro r hr
      simp [WebflowApi.list_items_loop, h1] at hr
  | case3 fuel offset all_items resp j h1 e h2 =>
      intro r hr
      simp [WebflowApi.list_items_loop, h1, h2] at hr
  | case4 fuel offset all_items resp j h1 total h2 hlt offset2 reqs e hpage =>
      intro r hr
      have hoff : offset2 = offset + 100 := rfl
      rw [hoff] at hpage
      have hreqs : reqs = [⟨"GET", itemsPageUrl cid 100 (offset + 100),
          hdrs, none⟩] := (congrArg Prod.fst hpage).symm
      simp [WebflowApi.list_items_loop, h1, h2, hlt, hpage] at hr
      subst hreqs
      simp at hr
      subst hr
      exact ⟨rfl, rfl, rfl, ⟨offset + 100, rfl⟩⟩
  | case5 fuel offset all_items resp j h1 total h2 hlt offset2 reqs resp2 hpage h3 =>
      intro r hr
      have hoff : offset2 = offset + 100 := rfl
      rw [hoff] at hpage
      have hreqs : reqs = [⟨"GET", itemsPageUrl cid 100 (offset + 100),
          hdrs, none⟩] := (congrArg Prod.fst hpage).symm
      simp [WebflowApi.list_items_loop, h1, h2, hlt, hpage, h3] at hr
      subst hreqs
      simp at hr
      subst hr
      exact ⟨rfl, rfl, rfl, ⟨offset + 100, rfl⟩⟩
  | case6 fuel offset all_items resp j h1 total h2 hlt offset2 reqs resp2 hpage j2 h3 e h4 =>
      intro r hr
      have hoff : offset2 = offset + 100 := rfl
      rw [hoff] at hpage
      have hreqs : reqs = [⟨"GET", itemsPageUrl cid 100 (offset + 100),
          hdrs, none⟩] := (congrArg Prod.fst hpage).symm
      simp [WebflowApi.list_items_loop, h1, h2, hlt, hpage, h3, h4] at hr
      subst hreqs
      simp at hr
      subst hr
      exact ⟨rfl, rfl, rfl, ⟨offset + 100, rfl⟩⟩
  | case7 fuel offset all_items resp j h1 total h2 hlt offset2 reqs resp2 hpage j2 h3 newItems h4 reqs2 out hloop ih =>
      intro r hr
      have hoff : offset2 = offset + 100 := rfl
      rw [hoff] at hpage hloop
      have hreqs : reqs = [⟨"GET", itemsPageUrl cid 100 (offset + 100),
          hdrs, none⟩] := (congrArg Prod.fst hpage).symm
      simp [WebflowApi.list_items_loop, h1, h2, hlt, hpage, h3, h4, hloop] at hr
      rcases hr with hr | hr
      · subst hreqs
        simp at hr
        subst hr
        exact ⟨rfl, rfl, rfl, ⟨offset + 100, rfl⟩⟩
      · have hr2 : r ∈ (WebflowApi.list_items_loop server hdrs cid
            fuel (offset + 100) (all_items ++ newItems) resp2).1 := by
          rw [hloop]
          exact hr
        exact ih r hr2
  | case8 fuel offset all_items resp j h1 total h2 hge =>
      intro r hr
      simp [WebflowApi.list_items_loop, h1, h2, hge] at hr

/-- Every request `list_items(all=True)` issues — the initial page request
and the one issued by each loop iteration — is a GET with the configured headers, no body,
and a page URL whose `limit` is the hard-coded 100. -/
theorem list_items_all_requests (server : Server)
    (hdrs : List (String × String)) (cid : String) (limit offset : Int)
    (fuel : Nat) :
    ∀ r ∈ (WebflowApi.list_items server hdrs cid limit offset true fuel).1,
      r.method = "GET" ∧ r.headers = hdrs ∧ r.jsonArg = none ∧
      ∃ off : Int, r.url = itemsPageUrl cid 100 off := by
  intro r hr
  rcases hpage : WebflowApi.list_items_page server hdrs cid 100 offset
    with ⟨reqs0, res0⟩
  have hreqs : reqs0 = [⟨"GET", itemsPageUrl cid 100 offset, hdrs, none⟩] :=
    (congrArg Prod.fst hpage).symm
  cases res0 with
  | error e =>
      simp [WebflowApi.list_items, hpage] at hr
      subst hreqs
      simp at hr
      subst hr
      exact ⟨rfl, rfl, rfl, ⟨offset, rfl⟩⟩
  | ok resp =>
      cases hitems : resp.getKey "items" with
      | none =>
          simp [WebflowApi.list_items, hpage, hitems] at hr
          subst hreqs
          simp at hr
          subst hr
          exact ⟨rfl, rfl, rfl, ⟨offset, rfl⟩⟩
      | some itemsJ =>
          cases hext : extendItems itemsJ with
          | error e =>
              simp [WebflowApi.list_items, hpage, hitems, hext] at hr
              subst hreqs
              simp at hr
              subst hr
              exact ⟨rfl, rfl, rfl, ⟨offset, rfl⟩⟩
          | ok items0 =>
              rcases hloop : WebflowApi.list_items_loop server hdrs cid
                  fuel offset items0 resp with ⟨reqs1, out⟩
              have hmem : r ∈ reqs0 ++ reqs1 := by
                cases out with
                | none =>
                    simpa [WebflowApi.list_items, hpage, hitems, hext, hloop]
                      using hr
                | some o =>
                    cases o with
                    | error e =>
                        simpa [WebflowApi.list_items, hpage, hitems, hext, hloop]
                          using hr
                    | ok p =>
                        rcases p with ⟨xs, lastResp⟩
                        simpa [WebflowApi.list_items, hpage, hitems, hext, hloop]
                          using hr
              rcases List.mem_append.mp hmem with hr0 | hr1
              · subst hreqs
                simp at hr0
                subst hr0
                exact ⟨rfl, rfl, rfl, ⟨offset, rfl⟩⟩
              · exact list_items_loop_requests server hdrs cid fuel offset
                  items0 resp r (by rw [hloop]; exact hr1)

/-- Every request any `WebflowApi` operation issues carries exactly the
configured headers. -/
theorem runOp_headers (server : Server) (hdrs : List (String × String))
    (op : Op) : ∀ r ∈ (runOp server hdrs op).1, r.headers = hdrs := by
  cases op <;>
    try (intro r hr; have h := List.mem_singleton.mp hr; subst h; rfl)
  case list_items cid limit offset all fuel =>
    cases all with
    | true =>
        intro r hr
        exact (list_items_all_requests server hdrs cid limit offset fuel r hr).2.1
    | false =>
        intro r hr
        have h := List.mem_singleton.mp hr
        subst h
        rfl

/-! ## Claims -/

set_option maxRecDepth 100000

/-- C1: with the simulated upstream `server250` (pages of 100 items each,
reported total 250), `list_items(all=True)` issues exactly 3 page requests
at offsets 0, 100 and 200, and returns the envelope of the last page with
"items" replaced by all 250 accumulated items in original server order and
"count" set to 250, whatever the caller-supplied limit, the configured
headers, and the loop-fuel margin. -/
theorem list_items_all_accumulates_250 (hdrs : List (String × String))
    (limit : Int) (k : Nat) :
    WebflowApi.list_items server250 hdrs "coll1" limit 0 true (k + 3) =
      ([⟨"GET", itemsPageUrl "coll1" 100 0, hdrs, none⟩,
        ⟨"GET", itemsPageUrl "coll1" 100 100, hdrs, none⟩,
        ⟨"GET", itemsPageUrl "coll1" 100 200, hdrs, none⟩],
       some (.ok (Json.obj
         [("items", Json.arr (seg 0 250)), ("count", Json.num 250),
          ("limit", Json.num 100), ("offset", Json.num 200),
          ("total", Json.num 250)]))) := rfl

/-- C2 (the code violates the claim): against an upstream whose every page
carries zero items while reporting total 250, `list_items(all=True)` never
terminates: for every iteration bound `fuel` the loop is still running
(result `none`), having issued one more page request per iteration. -/
theorem list_items_empty_pages_diverges (hdrs : List (String × String))
    (cid : String) (limit : Int) (fuel : Nat) :
    (WebflowApi.list_items serverEmptyPages hdrs cid limit 0 true fuel).2 =
      none ∧
    (WebflowApi.list_items serverEmptyPages hdrs cid limit 0 true fuel).1.length =
      fuel + 1 := by
  have h := loop_empty_none hdrs cid fuel 0
  rcases hout : WebflowApi.list_items_loop serverEmptyPages hdrs cid
      fuel 0 [] emptyResp with ⟨reqs1, out⟩
  rw [hout] at h
  simp only [Prod.fst, Prod.snd] at h
  obtain ⟨h1, h2⟩ := h
  subst h1
  simp only [WebflowApi.list_items, WebflowApi.list_items_page,
    WebflowApi.webflow_request, serverEmptyPages, emptyResp, Json.getKey,
    extendItems, List.lookup] at hout ⊢
  simp [hout, h2]

/-- C3 (counterexample): with a present but empty token, the class headers
are built without any error, and `info` then issues one request whose
Authorization header is "Bearer " followed by nothing — contradicting the
claim that an empty token raises a configuration error and that no request
is ever issued. -/
theorem empty_token_sends_request :
    WebflowApi.classHeaders (some "") =
      .ok [("Accept-Version", "1.0.0"), ("Authorization", "Bearer "),
           ("content-type", "application/json")] ∧
    (WebflowApi.info (fun _ => ⟨200, some (Json.obj [])⟩)
        (WebflowApi.mkHeaders "")).1 =
      [⟨"GET", "https://api.webflow.com/info",
        [("Accept-Version", "1.0.0"), ("Authorization", "Bearer "),
         ("content-type", "application/json")], none⟩] :=
  ⟨rfl, rfl⟩

/-- C3 (amended): a missing token setting makes the evaluation of the class
HEADERS fail (Django raises AttributeError) while the class body runs —
before any client exists, so no request can ever be issued; a present token,
even the empty string, is accepted unchecked and interpolated into the
Authorization header. -/
theorem missing_token_fails_fast :
    WebflowApi.classHeaders none = .error .attributeError ∧
    ∀ token : String, WebflowApi.classHeaders (some token) =
      .ok [("Accept-Version", "1.0.0"),
           ("Authorization", "Bearer " ++ token),
           ("content-type", "application/json")] :=
  ⟨rfl, fun _ => rfl⟩

/-- C4: `create_item`, `update_item` and `patch_item` each issue exactly one
request whose body is the payload wrapped as a single-key "fields" object,
and whose URL carries the query "?live=true" exactly when `live` is true
and no query otherwise. -/
theorem item_writes_wrap_fields_and_live_query (server : Server)
    (hdrs : List (String × String)) (cid iid : String) (P : Json)
    (live : Bool) :
    (WebflowApi.create_item server hdrs cid P live).1 =
      [⟨"POST", WebflowApi.WEBFLOW_URL ++ "/" ++ ("collections/" ++ cid ++
          "/items" ++ (if live then "?live=true" else "")),
        hdrs, some (Json.obj [("fields", P)])⟩] ∧
    (WebflowApi.update_item server hdrs cid iid P live).1 =
      [⟨"PUT", WebflowApi.WEBFLOW_URL ++ "/" ++ ("collections/" ++ cid ++
          "/items/" ++ iid ++ (if live then "?live=true" else "")),
        hdrs, some (Json.obj [("fields", P)])⟩] ∧
    (WebflowApi.patch_item server hdrs cid iid P live).1 =
      [⟨"PATCH", WebflowApi.WEBFLOW_URL ++ "/" ++ ("collections/" ++ cid ++
          "/items/" ++ iid ++ (if live then "?live=true" else "")),
        hdrs, some (Json.obj [("fields", P)])⟩] :=
  ⟨rfl, rfl, rfl⟩

/-- C5 (counterexample): a 304 response — non-2xx — with a JSON body does
not raise: `get_item` returns the parsed body, because `raise_for_status`
only raises for statuses in [400, 600). -/
theorem status_304_returns_ok :
    (WebflowApi.get_item (fun _ => ⟨304, some (Json.obj [("x", Json.num 1)])⟩)
        (WebflowApi.mkHeaders "tok") "c1" "unknown").2 =
      .ok (Json.obj [("x", Json.num 1)]) ∧
    ∀ e : PyError,
      (WebflowApi.get_item (fun _ => ⟨304, some (Json.obj [("x", Json.num 1)])⟩)
          (WebflowApi.mkHeaders "tok") "c1" "unknown").2 ≠ .error e :=
  ⟨rfl, fun _ h => nomatch h⟩

/-- C5 (amended): a response whose body parses as JSON raises the HTTP
error carrying the status code and parsed body exactly when the status is
in [400, 600) — which covers every 4xx/5xx, e.g. a 404 on `get_item` — and
otherwise (all of 1xx/2xx/3xx) the parsed body is returned. -/
theorem status_400_to_599_raises (st : Nat) (j : Json)
    (hdrs : List (String × String)) (cid iid : String) :
    (WebflowApi.get_item (fun _ => ⟨st, some j⟩) hdrs cid iid).2 =
      if 400 ≤ st ∧ st < 600 then .error (.httpError st j) else .ok j := rfl

/-- C6: every request issued by any operation, for any arguments, carries
exactly the three headers Accept-Version 1.0.0, Authorization Bearer
token, and content-type application/json. -/
theorem requests_carry_exact_headers (op : Op) (server : Server)
    (token : String) :
    ∀ r ∈ (runOp server (WebflowApi.mkHeaders token) op).1,
      r.headers = [("Accept-Version", "1.0.0"),
                   ("Authorization", "Bearer " ++ token),
                   ("content-type", "application/json")] := by
  intro r hr
  exact runOp_headers server (WebflowApi.mkHeaders token) op r hr

/-- C6 witness: the header property evaluated on the one request of a
concrete `info` call. -/
theorem requests_carry_exact_headers_witness :
    (⟨"GET", "https://api.webflow.com/info", WebflowApi.mkHeaders "tok",
        none⟩ : Request).headers =
      [("Accept-Version", "1.0.0"), ("Authorization", "Bearer tok"),
       ("content-type", "application/json")] :=
  requests_carry_exact_headers Op.info (fun _ => ⟨200, some Json.null⟩) "tok"
    ⟨"GET", "https://api.webflow.com/info", WebflowApi.mkHeaders "tok", none⟩
    (List.mem_singleton.mpr rfl)

/-- C7: `list_items(all=False)` issues a single GET whose query string
carries exactly the given limit and offset, and returns the parsed
response unmodified whenever the status is not an error status. -/
theorem list_items_single_page (st : Nat) (j : Json)
    (hdrs : List (String × String)) (cid : String) (limit offset : Int)
    (fuel : Nat) (hst : ¬ (400 ≤ st ∧ st < 600)) :
    WebflowApi.list_items (fun _ => ⟨st, some j⟩) hdrs cid limit offset
        false fuel =
      ([⟨"GET", itemsPageUrl cid limit offset, hdrs, none⟩],
       some (.ok j)) := by
  simp [WebflowApi.list_items, WebflowApi.list_items_page,
    WebflowApi.webflow_request, itemsPageUrl, hst]

/-- C7 witness: a concrete page request with limit 25 and offset 50. -/
theorem list_items_single_page_witness :
    ¬ (400 ≤ 200 ∧ 200 < 600) ∧
    WebflowApi.list_items (fun _ => ⟨200, some (Json.num 7)⟩)
        (WebflowApi.mkHeaders "tok") "c" 25 50 false 0 =
      ([⟨"GET", itemsPageUrl "c" 25 50, WebflowApi.mkHeaders "tok", none⟩],
       some (.ok (Json.num 7))) :=
  ⟨by decide,
   list_items_single_page 200 (Json.num 7) (WebflowApi.mkHeaders "tok")
     "c" 25 50 0 (by decide)⟩

/-- C8: `publish_site` issues one POST to sites/(site_id)/publish whose
body is the single-key "domains" object holding the given list, for every
site id and domain list. -/
theorem publish_site_body_domains (server : Server)
    (hdrs : List (String × String)) (site_id : String)
    (domain_names : List Json) :
    (WebflowApi.publish_site server hdrs site_id domain_names).1 =
      [⟨"POST",
        WebflowApi.WEBFLOW_URL ++ "/" ++ ("sites/" ++ site_id ++ "/publish"),
        hdrs, some (Json.obj [("domains", Json.arr domain_names)])⟩] := rfl

/-- C9: the all=True path of `list_items` ignores the caller-supplied limit
entirely — the whole run is unchanged under any other limit — and every
page request it issues uses the hard-coded limit of 100. -/
theorem list_items_all_ignores_limit (server : Server)
    (hdrs : List (String × String)) (cid : String)
    (limit limit2 offset : Int) (fuel : Nat) :
    WebflowApi.list_items server hdrs cid limit offset true fuel =
      WebflowApi.list_items server hdrs cid limit2 offset true fuel ∧
    ∀ r ∈ (WebflowApi.list_items server hdrs cid limit offset true fuel).1,
      ∃ off : Int, r.url = itemsPageUrl cid 100 off :=
  ⟨rfl, fun r hr =>
    (list_items_all_requests server hdrs cid limit offset fuel r hr).2.2.2⟩

/-- C9 witness: limits 7 and 13 give the same run on `server250`, and its
first request uses limit 100. -/
theorem list_items_all_ignores_limit_witness :
    (WebflowApi.list_items server250 (WebflowApi.mkHeaders "tok") "coll1"
        7 0 true 3 =
      WebflowApi.list_items server250 (WebflowApi.mkHeaders "tok") "coll1"
        13 0 true 3) ∧
    ∃ off : Int,
      (⟨"GET", itemsPageUrl "coll1" 100 0, WebflowApi.mkHeaders "tok",
          none⟩ : Request).url = itemsPageUrl "coll1" 100 off :=
  ⟨(list_items_all_ignores_limit server250 (WebflowApi.mkHeaders "tok")
      "coll1" 7 13 0 3).1,
   (list_items_all_ignores_limit server250 (WebflowApi.mkHeaders "tok")
      "coll1" 7 13 0 3).2
     ⟨"GET", itemsPageUrl "coll1" 100 0, WebflowApi.mkHeaders "tok", none⟩
     (List.mem_cons_self _ _)⟩

/-- C10: the primitive parses the body as JSON before any status check, so
a response whose body is not valid JSON yields the JSON decode error
whatever the status — for a non-2xx status no HTTP-status error is raised,
and for a 2xx status the call fails instead of returning. -/
theorem webflow_request_parses_body_first (st : Nat)
    (hdrs : List (String × String)) (method path : String)
    (jsonArg : Option Json) :
    (WebflowApi.webflow_request (fun _ => ⟨st, none⟩) hdrs method path
        jsonArg).2 = .error .decodeError ∧
    ∀ j : Json,
      (WebflowApi.webflow_request (fun _ => ⟨st, none⟩) hdrs method path
          jsonArg).2 ≠ .error (.httpError st j) :=
  ⟨rfl, fun _ h => nomatch h⟩
